import Mathlib

/-!
Verification of the robocopyrs command-builder library against its
natural-language specification.  Every definition below is a shallow
embedding of the corresponding Rust item: machine integers become Nat/Int
with explicit wrap-around where it matters, fallible code (Rust panics via
unwrap, try_into, unreachable) becomes Except/Option, and OsString tokens
become String.
-/

namespace Robocopy

/-- Models Rust Option::unwrap: ok on Some, a panic (error) on None. -/
def unwrapO {α : Type} (o : Option α) : Except String α :=
  match o with
  | some x => Except.ok x
  | none => Except.error "called unwrap on a None value"

/-- Models Vec::try_into an array of length n followed by unwrap:
the conversion panics when the vector length differs from n. -/
def tryIntoLen (n : Nat) (l : List Bool) : Except String (List Bool) :=
  if l.length = n then Except.ok l else Except.error "could not convert vector to array"

/-- Models the source loop over a range of k iterations where each
iteration first halves val (u8 shift right) and then records whether the
shifted value equals one.  All values involved stay below 256, so Nat
division coincides with the u8 shift. -/
def shiftBits : Nat → Nat → List Bool
  | 0, _ => []
  | k + 1, val =>
      let v := val / 2
      (v == 1) :: shiftBits k v

/-- Concatenation of the letters whose presence bit is set, in order;
models the zip/filter/unzip idiom used by every serializer. -/
def presentLetters (letters : List String) (props : List Bool) : String :=
  String.join ((letters.zip props).filterMap fun p => if p.2 then some p.1 else none)

/-- Plain list-of-lists concatenation helper. -/
def listJoin {α : Type} : List (List α) → List α
  | [] => []
  | l :: ls => l ++ listJoin ls

/-- Keeps the first components whose boolean flag is set; models the
zip/filter/unzip idiom of every single_variants implementation. -/
def keepPresent {α : Type} (l : List (α × Bool)) : List α :=
  l.filterMap fun p => if p.2 then some p.1 else Option.none

/-- Enum FileAttributes from src/lib.rs; the source array [bool; 8] is a
length-8 boolean list here. -/
inductive FileAttributes where
  | READ_ONLY
  | ARCHIVE
  | SYSTEM
  | HIDDEN
  | COMPRESSED
  | NOT_CONTENT_INDEXED
  | ENCRYPTED
  | TEMPORARY
  | MULTIPLE (attribs : List Bool)
deriving DecidableEq

/-- FileAttributes::index_of from src/lib.rs. -/
def FileAttributes.indexOf? : FileAttributes → Option Nat
  | .READ_ONLY => some 0
  | .ARCHIVE => some 1
  | .SYSTEM => some 2
  | .HIDDEN => some 3
  | .COMPRESSED => some 4
  | .NOT_CONTENT_INDEXED => some 5
  | .ENCRYPTED => some 6
  | .TEMPORARY => some 7
  | .MULTIPLE _ => none

/-- FileAttributes::VARIANTS from src/lib.rs. -/
def FileAttributes.VARIANTS : List FileAttributes :=
  [.READ_ONLY, .ARCHIVE, .SYSTEM, .HIDDEN, .COMPRESSED,
   .NOT_CONTENT_INDEXED, .ENCRYPTED, .TEMPORARY]

/-- FileAttributes::all from src/lib.rs. -/
def FileAttributes.all : FileAttributes := .MULTIPLE (List.replicate 8 true)

/-- FileAttributes::none from src/lib.rs. -/
def FileAttributes.none : FileAttributes := .MULTIPLE (List.replicate 8 false)

/-- The Add impl for FileAttributes from src/lib.rs.  An atomic left
operand computes val as two to the power of its index times two with u8
wrap-around, collects six booleans by repeated shifting, and converts the
six-element vector into a [bool; 8] array: that conversion always fails,
which the Rust code surfaces as an unwrap panic, modelled as an error.
The right operand either intersects the presence vectors (the source uses
a boolean AND on the zip) or sets its own index to true. -/
def FileAttributes.add (a b : FileAttributes) : Except String FileAttributes := do
  let init : List Bool ←
    match a with
    | .MULTIPLE attribs => pure attribs
    | attrib => do
        let i ← unwrapO attrib.indexOf?
        tryIntoLen 8 (shiftBits 6 ((2 ^ i * 2) % 256))
  match b with
  | .MULTIPLE attribs => pure (.MULTIPLE (List.zipWith and init attribs))
  | attrib => do
      let i ← unwrapO attrib.indexOf?
      pure (.MULTIPLE (init.set i true))

/-- The MultipleVariant impl for FileAttributes from src/lib.rs. -/
def FileAttributes.singleVariants : FileAttributes → List FileAttributes
  | .MULTIPLE attribs => keepPresent (FileAttributes.VARIANTS.zip attribs)
  | attrib => [attrib]

/-- The From impl producing the OsString of a FileAttributes value. -/
def FileAttributes.toToken : FileAttributes → String
  | .READ_ONLY => "R"
  | .ARCHIVE => "A"
  | .SYSTEM => "S"
  | .HIDDEN => "H"
  | .COMPRESSED => "C"
  | .NOT_CONTENT_INDEXED => "N"
  | .ENCRYPTED => "E"
  | .TEMPORARY => "T"
  | .MULTIPLE props => presentLetters ["R", "A", "S", "H", "C", "N", "E", "T"] props

/-- Enum FileProperties from src/properties.rs. -/
inductive FileProperties where
  | DATA
  | ATTRIBUTES
  | TIME_STAMPS
  | NTFS_ACCESS_CONTROL_LIST
  | OWNER_INFO
  | AUDITING_INFO
  | MULTIPLE (props : List Bool)
deriving DecidableEq

/-- FileProperties::index_of from src/properties.rs. -/
def FileProperties.indexOf? : FileProperties → Option Nat
  | .DATA => some 0
  | .ATTRIBUTES => some 1
  | .TIME_STAMPS => some 2
  | .NTFS_ACCESS_CONTROL_LIST => some 3
  | .OWNER_INFO => some 4
  | .AUDITING_INFO => some 5
  | .MULTIPLE _ => none

/-- FileProperties::VARIANTS from src/properties.rs. -/
def FileProperties.VARIANTS : List FileProperties :=
  [.DATA, .ATTRIBUTES, .TIME_STAMPS, .NTFS_ACCESS_CONTROL_LIST, .OWNER_INFO, .AUDITING_INFO]

/-- FileProperties::all from src/properties.rs. -/
def FileProperties.all : FileProperties := .MULTIPLE (List.replicate 6 true)

/-- FileProperties::none from src/properties.rs. -/
def FileProperties.none : FileProperties := .MULTIPLE (List.replicate 6 false)

/-- The Add impl for FileProperties from src/properties.rs.  An atomic
left operand computes val as two to the power of its index PLUS two (the
source uses addition here, unlike the FileAttributes impl) and collects
six booleans by repeated shifting; the six-element vector converts into a
[bool; 6] array, which always succeeds.  The right operand either
intersects the presence vectors (boolean AND in the source) or sets its
own index to true. -/
def FileProperties.add (a b : FileProperties) : Except String FileProperties := do
  let init : List Bool ←
    match a with
    | .MULTIPLE props => pure props
    | prop => do
        let i ← unwrapO prop.indexOf?
        tryIntoLen 6 (shiftBits 6 (2 ^ i + 2))
  match b with
  | .MULTIPLE props => pure (.MULTIPLE (List.zipWith and init props))
  | prop => do
      let i ← unwrapO prop.indexOf?
      pure (.MULTIPLE (init.set i true))

/-- The MultipleVariant impl for FileProperties from src/properties.rs. -/
def FileProperties.singleVariants : FileProperties → List FileProperties
  | .MULTIPLE props => keepPresent (FileProperties.VARIANTS.zip props)
  | prop => [prop]

/-- The From impl producing the OsString of a FileProperties value. -/
def FileProperties.toToken : FileProperties → String
  | .DATA => "/copy:D"
  | .ATTRIBUTES => "/copy:A"
  | .TIME_STAMPS => "/copy:T"
  | .NTFS_ACCESS_CONTROL_LIST => "/copy:S"
  | .OWNER_INFO => "/copy:O"
  | .AUDITING_INFO => "/copy:U"
  | .MULTIPLE props => "/copy:" ++ presentLetters ["D", "A", "T", "S", "O", "U"] props

/-- Enum DirectoryProperties from src/properties.rs. -/
inductive DirectoryProperties where
  | DATA
  | ATTRIBUTES
  | TIME_STAMPS
  | MULTIPLE (props : List Bool)
deriving DecidableEq

/-- DirectoryProperties::index_of from src/properties.rs. -/
def DirectoryProperties.indexOf? : DirectoryProperties → Option Nat
  | .DATA => some 0
  | .ATTRIBUTES => some 1
  | .TIME_STAMPS => some 2
  | .MULTIPLE _ => none

/-- DirectoryProperties::VARIANTS from src/properties.rs. -/
def DirectoryProperties.VARIANTS : List DirectoryProperties :=
  [.DATA, .ATTRIBUTES, .TIME_STAMPS]

/-- DirectoryProperties::all from src/properties.rs. -/
def DirectoryProperties.all : DirectoryProperties := .MULTIPLE (List.replicate 3 true)

/-- DirectoryProperties::none from src/properties.rs. -/
def DirectoryProperties.none : DirectoryProperties := .MULTIPLE (List.replicate 3 false)

/-- The Add impl for DirectoryProperties from src/properties.rs; the same
shape as the FileProperties one but with three iterations and a
[bool; 3] target, so the conversion always succeeds. -/
def DirectoryProperties.add (a b : DirectoryProperties) : Except String DirectoryProperties := do
  let init : List Bool ←
    match a with
    | .MULTIPLE props => pure props
    | prop => do
        let i ← unwrapO prop.indexOf?
        tryIntoLen 3 (shiftBits 3 (2 ^ i + 2))
  match b with
  | .MULTIPLE props => pure (.MULTIPLE (List.zipWith and init props))
  | prop => do
      let i ← unwrapO prop.indexOf?
      pure (.MULTIPLE (init.set i true))

/-- The MultipleVariant impl for DirectoryProperties from src/properties.rs. -/
def DirectoryProperties.singleVariants : DirectoryProperties → List DirectoryProperties
  | .MULTIPLE props => keepPresent (DirectoryProperties.VARIANTS.zip props)
  | prop => [prop]

/-- The From impl producing the OsString of a DirectoryProperties value. -/
def DirectoryProperties.toToken : DirectoryProperties → String
  | .DATA => "/dcopy:D"
  | .ATTRIBUTES => "/dcopy:A"
  | .TIME_STAMPS => "/dcopy:T"
  | .MULTIPLE props => "/dcopy:" ++ presentLetters ["D", "A", "T"] props


/-- Enum CopyMode from src/lib.rs. -/
inductive CopyMode where
  | RESTARTABLE_MODE
  | BACKUP_MODE
  | RESTARTABLE_MODE_BACKUP_MODE_FALLBACK
deriving DecidableEq

/-- The From impl producing the OsString of a CopyMode value. -/
def CopyMode.toToken : CopyMode → String
  | .RESTARTABLE_MODE => "/z"
  | .BACKUP_MODE => "/b"
  | .RESTARTABLE_MODE_BACKUP_MODE_FALLBACK => "/zb"

/-- Enum Move from src/lib.rs. -/
inductive Move where
  | FILES
  | FILES_AND_DIRS
deriving DecidableEq

/-- The From impl producing the OsString of a Move value. -/
def Move.toToken : Move → String
  | .FILES => "/mov"
  | .FILES_AND_DIRS => "/move"

/-- Enum PostCopyActions from src/lib.rs. -/
inductive PostCopyActions where
  | AddAttribsToFiles (attribs : FileAttributes)
  | RmvAttribsFromFiles (attribs : FileAttributes)
  | MULTIPLE (addAttribs rmvAttribs : FileAttributes)
deriving DecidableEq

/-- The Add impl for PostCopyActions from src/lib.rs.  The source
initialises the pair (add_attribs, rmv_attribs) with the AddAttribsToFiles
payload in the rmv slot and the RmvAttribsFromFiles payload in the add
slot; a right-hand contribution is merged through FileAttributes addition
only when the matching slot is occupied and is dropped otherwise; the
final arm panics (modelled as an error) when both slots are empty. -/
def PostCopyActions.add (a b : PostCopyActions) : Except String PostCopyActions := do
  let init : Option FileAttributes × Option FileAttributes :=
    match a with
    | .MULTIPLE addA rmvA => (some addA, some rmvA)
    | .AddAttribsToFiles attribs => (Option.none, some attribs)
    | .RmvAttribsFromFiles attribs => (some attribs, Option.none)
  let addAttribs0 := init.1
  let rmvAttribs0 := init.2
  let merged : Option FileAttributes × Option FileAttributes ←
    (match b with
     | .MULTIPLE addB rmvB => do
         let a1 ← match addAttribs0 with
           | some attribs => do
               let v ← FileAttributes.add attribs addB
               pure (some v)
           | Option.none => pure (Option.none : Option FileAttributes)
         let r1 ← match rmvAttribs0 with
           | some attribs => do
               let v ← FileAttributes.add attribs rmvB
               pure (some v)
           | Option.none => pure (Option.none : Option FileAttributes)
         pure (a1, r1)
     | .AddAttribsToFiles addB => do
         let a1 ← match addAttribs0 with
           | some attribs => do
               let v ← FileAttributes.add attribs addB
               pure (some v)
           | Option.none => pure (Option.none : Option FileAttributes)
         pure (a1, rmvAttribs0)
     | .RmvAttribsFromFiles rmvB => do
         let r1 ← match rmvAttribs0 with
           | some attribs => do
               let v ← FileAttributes.add attribs rmvB
               pure (some v)
           | Option.none => pure (Option.none : Option FileAttributes)
         pure (addAttribs0, r1))
  match merged with
  | (some addA, some rmvA) => pure (.MULTIPLE addA rmvA)
  | (Option.none, some rmvA) => pure (.RmvAttribsFromFiles rmvA)
  | (some addA, Option.none) => pure (.AddAttribsToFiles addA)
  | (Option.none, Option.none) =>
      Except.error "use default rather than a MULTIPLE of two empty attribute sets"

/-- The MultipleVariant impl for PostCopyActions from src/lib.rs. -/
def PostCopyActions.singleVariants : PostCopyActions → List PostCopyActions
  | .MULTIPLE addA rmvA => [.AddAttribsToFiles addA, .RmvAttribsFromFiles rmvA]
  | v => [v]

/-- The From impl producing the OsString tokens of a PostCopyActions value. -/
def PostCopyActions.toArgs : PostCopyActions → List String
  | .AddAttribsToFiles attribs => ["/a+:" ++ attribs.toToken]
  | .RmvAttribsFromFiles attribs => ["/a-:" ++ attribs.toToken]
  | .MULTIPLE addA rmvA => ["/a+:" ++ addA.toToken, "/a-:" ++ rmvA.toToken]

/-- Enum FilesystemOptions from src/lib.rs.  The source gives this family
no Add implementation at all; only the serializer exists. -/
inductive FilesystemOptions where
  | FAT_FILE_NAMES
  | ASSUME_FAT_FILE_TIMES
  | DISABLE_LONG_PATHS
  | MULTIPLE (options : List Bool)
deriving DecidableEq

/-- The From impl producing the OsString tokens of a FilesystemOptions value. -/
def FilesystemOptions.toArgs : FilesystemOptions → List String
  | .FAT_FILE_NAMES => ["/fat"]
  | .ASSUME_FAT_FILE_TIMES => ["/fft"]
  | .DISABLE_LONG_PATHS => ["/256"]
  | .MULTIPLE options => keepPresent (["/fat", "/fft", "/256"].zip options)

/-- Enum FileExclusionFilter from src/filter.rs. -/
inductive FileExclusionFilter where
  | Attributes (attribs : FileAttributes)
  | PathOrName (paths : List String)
  | CHANGED
  | OLDER
  | NEWER
  | JUNCTION_POINTS
  | MULTIPLE (attribs : Option FileAttributes) (paths : List String) (filters : List Bool)
deriving DecidableEq

/-- FileExclusionFilter::index_of from src/filter.rs; the source has no
arm for OLDER, which therefore falls to the None case. -/
def FileExclusionFilter.indexOf? : FileExclusionFilter → Option Nat
  | .CHANGED => some 0
  | .NEWER => some 2
  | .JUNCTION_POINTS => some 3
  | _ => none

/-- FileExclusionFilter::VARIANTS from src/filter.rs. -/
def FileExclusionFilter.VARIANTS : List FileExclusionFilter :=
  [.CHANGED, .OLDER, .NEWER, .JUNCTION_POINTS]

/-- The Add impl for FileExclusionFilter from src/filter.rs.  An atomic
boolean flag on the left unwraps its index (a panic for OLDER) and
converts six collected booleans into a [bool; 4] array (a panic always);
attribute payloads merge through FileAttributes addition with the
right-hand payload as left operand; path lists concatenate left then
right; the presence vectors of two MULTIPLE values are intersected
(boolean AND in the source).  Panics are modelled as errors. -/
def FileExclusionFilter.add (a b : FileExclusionFilter) :
    Except String FileExclusionFilter := do
  let init : Option FileAttributes × List String × List Bool ←
    (match a with
     | .MULTIPLE attribs paths filters => pure (attribs, paths, filters)
     | .Attributes attribs =>
         pure (some attribs, ([] : List String), List.replicate 4 false)
     | .PathOrName paths =>
         pure ((Option.none : Option FileAttributes), paths, List.replicate 4 false)
     | filt => do
         let i ← unwrapO filt.indexOf?
         let bits ← tryIntoLen 4 (shiftBits 6 (2 ^ i + 2))
         pure ((Option.none : Option FileAttributes), ([] : List String), bits))
  let resultAttribs0 := init.1
  let resultPaths0 := init.2.1
  let resultFilters0 := init.2.2
  match b with
  | .MULTIPLE attribs paths filters => do
      let filters1 := List.zipWith and resultFilters0 filters
      let attribs1 :=
        match attribs with
        | some attribsB =>
            match resultAttribs0 with
            | some resAttribs => some (FileAttributes.add attribsB resAttribs)
            | Option.none => some (Except.ok attribsB)
        | Option.none =>
            resultAttribs0.map Except.ok
      let attribs2 ← match attribs1 with
        | some e => do
            let v ← e
            pure (some v)
        | Option.none => pure (Option.none : Option FileAttributes)
      pure (.MULTIPLE attribs2 (resultPaths0 ++ paths) filters1)
  | .Attributes attribsB => do
      let attribs2 ← match resultAttribs0 with
        | some resAttribs => do
            let v ← FileAttributes.add attribsB resAttribs
            pure (some v)
        | Option.none => pure (some attribsB)
      pure (.MULTIPLE attribs2 resultPaths0 resultFilters0)
  | .PathOrName paths =>
      pure (.MULTIPLE resultAttribs0 (resultPaths0 ++ paths) resultFilters0)
  | filt => do
      let i ← unwrapO filt.indexOf?
      pure (.MULTIPLE resultAttribs0 resultPaths0 (resultFilters0.set i true))

/-- The MultipleVariant impl for FileExclusionFilter from src/filter.rs:
boolean flags in VARIANTS order, then the attribute payload, then the
path list when non-empty. -/
def FileExclusionFilter.singleVariants : FileExclusionFilter → List FileExclusionFilter
  | .MULTIPLE attribs paths props =>
      keepPresent (FileExclusionFilter.VARIANTS.zip props)
      ++ (match attribs with
          | some attribsV => [.Attributes attribsV]
          | Option.none => [])
      ++ (if paths.isEmpty then [] else [.PathOrName paths])
  | f => [f]

/-- The From impl producing the OsString tokens of a FileExclusionFilter
value; the MULTIPLE arm of the inner match is unreachable because
single_variants never yields it. -/
def FileExclusionFilter.toArgs (f : FileExclusionFilter) : List String :=
  listJoin (f.singleVariants.map fun filt =>
    match filt with
    | .Attributes attribs => ["/xa:" ++ attribs.toToken]
    | .PathOrName paths => "/xf" :: paths
    | .CHANGED => ["/xc"]
    | .OLDER => ["/xo"]
    | .NEWER => ["/xn"]
    | .JUNCTION_POINTS => ["/xjf"]
    | .MULTIPLE _ _ _ => [])

/-- Enum DirectoryExclusionFilter from src/filter.rs. -/
inductive DirectoryExclusionFilter where
  | PathOrName (paths : List String)
  | JUNCTION_POINTS
  | BOTH (paths : List String)
deriving DecidableEq

/-- The MultipleVariant impl for DirectoryExclusionFilter from src/filter.rs. -/
def DirectoryExclusionFilter.singleVariants :
    DirectoryExclusionFilter → List DirectoryExclusionFilter
  | .BOTH paths => [.JUNCTION_POINTS, .PathOrName paths]
  | .JUNCTION_POINTS => [.JUNCTION_POINTS]
  | .PathOrName paths => [.PathOrName paths]

/-- The From impl producing the OsString tokens of a
DirectoryExclusionFilter value. -/
def DirectoryExclusionFilter.toArgs (d : DirectoryExclusionFilter) : List String :=
  listJoin (d.singleVariants.map fun filt =>
    match filt with
    | .PathOrName paths => "/xd" :: paths
    | .JUNCTION_POINTS => ["/xjd"]
    | .BOTH _ => [])

/-- Enum FileAndDirectoryExclusionFilter from src/filter.rs. -/
inductive FileAndDirectoryExclusionFilter where
  | EXTRA
  | LONELY
  | JUNCTION_POINTS
  | MULTIPLE (filters : List Bool)
deriving DecidableEq

/-- FileAndDirectoryExclusionFilter::index_of from src/filter.rs. -/
def FileAndDirectoryExclusionFilter.indexOf? : FileAndDirectoryExclusionFilter → Option Nat
  | .EXTRA => some 0
  | .LONELY => some 1
  | .JUNCTION_POINTS => some 2
  | .MULTIPLE _ => none

/-- FileAndDirectoryExclusionFilter::VARIANTS from src/filter.rs. -/
def FileAndDirectoryExclusionFilter.VARIANTS : List FileAndDirectoryExclusionFilter :=
  [.EXTRA, .LONELY, .JUNCTION_POINTS]

/-- The Add impl for FileAndDirectoryExclusionFilter from src/filter.rs.
An atomic left operand collects six booleans and converts them into a
[bool; 3] array, which always fails (an unwrap panic, modelled as an
error); a MULTIPLE right operand intersects the presence vectors. -/
def FileAndDirectoryExclusionFilter.add (a b : FileAndDirectoryExclusionFilter) :
    Except String FileAndDirectoryExclusionFilter := do
  let init : List Bool ←
    match a with
    | .MULTIPLE filters => pure filters
    | filt => do
        let i ← unwrapO filt.indexOf?
        tryIntoLen 3 (shiftBits 6 (2 ^ i + 2))
  match b with
  | .MULTIPLE filters => pure (.MULTIPLE (List.zipWith and init filters))
  | filt => do
      let i ← unwrapO filt.indexOf?
      pure (.MULTIPLE (init.set i true))

/-- The MultipleVariant impl for FileAndDirectoryExclusionFilter. -/
def FileAndDirectoryExclusionFilter.singleVariants :
    FileAndDirectoryExclusionFilter → List FileAndDirectoryExclusionFilter
  | .MULTIPLE filters => keepPresent (FileAndDirectoryExclusionFilter.VARIANTS.zip filters)
  | v => [v]

/-- The From impl producing the OsString tokens of a
FileAndDirectoryExclusionFilter value. -/
def FileAndDirectoryExclusionFilter.toArgs (f : FileAndDirectoryExclusionFilter) :
    List String :=
  listJoin (f.singleVariants.map fun filt =>
    match filt with
    | .EXTRA => ["/xx"]
    | .LONELY => ["/xl"]
    | .JUNCTION_POINTS => ["/xj"]
    | .MULTIPLE _ => [])

/-- Enum FileExclusionFilterException from src/filter.rs. -/
inductive FileExclusionFilterException where
  | MODIFIED
  | SAME
  | TWEAKED
  | MULTIPLE (filters : List Bool)
deriving DecidableEq

/-- FileExclusionFilterException::index_of from src/filter.rs. -/
def FileExclusionFilterException.indexOf? : FileExclusionFilterException → Option Nat
  | .MODIFIED => some 0
  | .SAME => some 1
  | .TWEAKED => some 2
  | .MULTIPLE _ => none

/-- FileExclusionFilterException::VARIANTS from src/filter.rs. -/
def FileExclusionFilterException.VARIANTS : List FileExclusionFilterException :=
  [.MODIFIED, .SAME, .TWEAKED]

/-- The Add impl for FileExclusionFilterException from src/filter.rs; the
same shape as the FileAndDirectoryExclusionFilter one, six collected
booleans against a [bool; 3] target, so an atomic left operand always
panics (modelled as an error). -/
def FileExclusionFilterException.add (a b : FileExclusionFilterException) :
    Except String FileExclusionFilterException := do
  let init : List Bool ←
    match a with
    | .MULTIPLE filters => pure filters
    | filt => do
        let i ← unwrapO filt.indexOf?
        tryIntoLen 3 (shiftBits 6 (2 ^ i + 2))
  match b with
  | .MULTIPLE filters => pure (.MULTIPLE (List.zipWith and init filters))
  | filt => do
      let i ← unwrapO filt.indexOf?
      pure (.MULTIPLE (init.set i true))

/-- The MultipleVariant impl for FileExclusionFilterException. -/
def FileExclusionFilterException.singleVariants :
    FileExclusionFilterException → List FileExclusionFilterException
  | .MULTIPLE filters => keepPresent (FileExclusionFilterException.VARIANTS.zip filters)
  | v => [v]

/-- The From impl producing the OsString tokens of a
FileExclusionFilterException value. -/
def FileExclusionFilterException.toArgs (f : FileExclusionFilterException) :
    List String :=
  listJoin (f.singleVariants.map fun filt =>
    match filt with
    | .MODIFIED => ["/im"]
    | .SAME => ["/is"]
    | .TWEAKED => ["/it"]
    | .MULTIPLE _ => [])

/-- Struct Filter from src/filter.rs; lifetimes and borrowed strings
become plain String, u128 sizes become Nat. -/
structure Filter where
  handle_archive_and_reset : Bool
  include_only_files_with_any_of_these_attribs : Option FileAttributes
  file_exclusion_filter : Option FileExclusionFilter
  directory_exclusion_filter : Option DirectoryExclusionFilter
  file_and_directory_exclusion_filter : Option FileAndDirectoryExclusionFilter
  file_exclusion_filter_exceptions : Option FileExclusionFilterException
  max_size : Option Nat
  min_size : Option Nat
  max_age : Option String
  min_age : Option String
  max_last_access_date : Option String
  min_last_access_date : Option String
deriving DecidableEq

/-- The From impl producing the OsString tokens of a Filter value, in the
field order of src/filter.rs. -/
def Filter.toArgs (f : Filter) : List String :=
  (if f.handle_archive_and_reset then ["/m"] else []) ++
  (match f.include_only_files_with_any_of_these_attribs with
   | some attribs => ["/ia:" ++ attribs.toToken]
   | none => []) ++
  (match f.file_exclusion_filter with
   | some x => x.toArgs
   | none => []) ++
  (match f.directory_exclusion_filter with
   | some x => x.toArgs
   | none => []) ++
  (match f.file_and_directory_exclusion_filter with
   | some x => x.toArgs
   | none => []) ++
  (match f.file_exclusion_filter_exceptions with
   | some x => x.toArgs
   | none => []) ++
  (match f.max_size with
   | some n => ["/max:" ++ toString n]
   | none => []) ++
  (match f.min_size with
   | some n => ["/min:" ++ toString n]
   | none => []) ++
  (match f.max_age with
   | some v => ["/maxage:" ++ v]
   | none => []) ++
  (match f.min_age with
   | some v => ["/minage:" ++ v]
   | none => []) ++
  (match f.max_last_access_date with
   | some v => ["/maxlad:" ++ v]
   | none => []) ++
  (match f.min_last_access_date with
   | some v => ["/minlad:" ++ v]
   | none => [])

/-- Enum PerformanceChoice from src/performance.rs; the u8 thread count
becomes Nat (the source type bounds it by 255). -/
inductive PerformanceChoice where
  | Threads (threads : Option Nat)
  | InterPacketGap (gap : Nat)
deriving DecidableEq

/-- The From impl producing the OsString of a PerformanceChoice value:
a specified thread count is clamped into the interval from 1 to 128 (the
Rust clamp call), an unspecified one defaults to 8, both at serialization
time. -/
def PerformanceChoice.toToken : PerformanceChoice → String
  | .Threads threads => "/mt:" ++ toString ((threads.map fun n => max 1 (min n 128)).getD 8)
  | .InterPacketGap gap => "/ipg:" ++ toString gap

/-- Struct PerformanceOptions from src/performance.rs. -/
structure PerformanceOptions where
  performance_choice : Option PerformanceChoice
  dont_offload : Bool
  request_network_compression : Bool
  copy_rather_than_follow_link : Bool
deriving DecidableEq

/-- The From impl producing the OsString tokens of a PerformanceOptions value. -/
def PerformanceOptions.toArgs (po : PerformanceOptions) : List String :=
  (match po.performance_choice with
   | some choice => [choice.toToken]
   | none => []) ++
  (if po.dont_offload then ["/nooffload"] else []) ++
  (if po.request_network_compression then ["/compress"] else []) ++
  (if po.copy_rather_than_follow_link then ["/sl"] else [])

/-- Struct RetrySettings from src/performance.rs; the usize counts become
Nat, the nested optional layering is kept as is. -/
structure RetrySettings where
  specify_retries_failed_copies : Option (Option Nat)
  specify_wait_between_retries : Option (Option Nat)
  save_specifications : Bool
  await_share_names_def : Bool
deriving DecidableEq

/-- The From impl producing the OsString tokens of a RetrySettings value:
an absent outer Option emits nothing, a present outer Option with an
absent inner number emits the bare flag with an empty trailing value, and
a present number is appended after the colon. -/
def RetrySettings.toArgs (rs : RetrySettings) : List String :=
  (match rs.specify_retries_failed_copies with
   | some (some n) => ["/r:" ++ toString n]
   | some none => ["/r:"]
   | none => []) ++
  (match rs.specify_wait_between_retries with
   | some (some n) => ["/w:" ++ toString n]
   | some none => ["/w:"]
   | none => []) ++
  (if rs.save_specifications then ["/reg"] else []) ++
  (if rs.await_share_names_def then ["/tbd"] else [])

/-- Struct LogFileSettings from src/logging.rs; the path becomes String. -/
structure LogFileSettings where
  log : String
  unicode : Bool
  append : Bool
deriving DecidableEq

/-- The From impl producing the OsString of a LogFileSettings value. -/
def LogFileSettings.toToken (ls : LogFileSettings) : String :=
  "/" ++ (if ls.unicode then "uni" else "") ++ "log" ++
  (if ls.append then "+" else "") ++ ":" ++ ls.log

/-- Struct LoggingOptions from src/logging.rs. -/
structure LoggingOptions where
  only_log : Bool
  report_extra : Bool
  verbose : Bool
  time_stamps : Bool
  full_path_names : Bool
  sizes_bytes : Bool
  dont_log_size : Bool
  dont_log_class : Bool
  dont_log_file_names : Bool
  dont_log_dir_names : Bool
  no_progress_display : Bool
  show_estimated_time_of_arrival : Bool
  log_file : Option LogFileSettings
  combination_log : Bool
  dont_log_header : Bool
  dont_log_summary : Bool
  unicode : Bool
deriving DecidableEq

/-- The From impl producing the OsString tokens of a LoggingOptions
value, in the push order of src/logging.rs. -/
def LoggingOptions.toArgs (lo : LoggingOptions) : List String :=
  (if lo.only_log then ["/l"] else []) ++
  (if lo.report_extra then ["/x"] else []) ++
  (if lo.verbose then ["/v"] else []) ++
  (if lo.time_stamps then ["/ts"] else []) ++
  (if lo.full_path_names then ["/fp"] else []) ++
  (if lo.sizes_bytes then ["/bytes"] else []) ++
  (if lo.dont_log_size then ["/ns"] else []) ++
  (if lo.dont_log_class then ["/nc"] else []) ++
  (if lo.dont_log_file_names then ["/nfl"] else []) ++
  (if lo.dont_log_dir_names then ["/ndl"] else []) ++
  (if lo.no_progress_display then ["/np"] else []) ++
  (if lo.show_estimated_time_of_arrival then ["/eta"] else []) ++
  (match lo.log_file with
   | some settings => [settings.toToken]
   | none => []) ++
  (if lo.combination_log then ["/tee"] else []) ++
  (if lo.dont_log_header then ["/njh"] else []) ++
  (if lo.dont_log_summary then ["/njs"] else []) ++
  (if lo.unicode then ["/unicode"] else [])

/-- Struct RobocopyCommandBuilder from src/lib.rs; paths become Strings. -/
structure RobocopyCommandBuilder where
  source : String
  destination : String
  files : List String
  copy_mode : Option CopyMode
  unbuffered : Bool
  empty_dir_copy : Bool
  remove_files_and_dirs_not_in_src : Bool
  only_copy_top_n_levels : Option Nat
  structure_and_size_zero_files_only : Bool
  copy_file_properties : Option FileProperties
  copy_dir_properties : Option DirectoryProperties
  filter : Option Filter
  filesystem_options : Option FilesystemOptions
  performance_options : Option PerformanceOptions
  retry_settings : Option RetrySettings
  logging : Option LoggingOptions
  mv : Option Move
  post_copy_actions : Option PostCopyActions
  overwrite_destination_dir_sec_settings_when_mirror : Bool

/-- The Default impl for RobocopyCommandBuilder from src/lib.rs. -/
def RobocopyCommandBuilder.default : RobocopyCommandBuilder where
  source := "."
  destination := "."
  files := []
  copy_mode := none
  unbuffered := false
  empty_dir_copy := false
  remove_files_and_dirs_not_in_src := false
  only_copy_top_n_levels := none
  structure_and_size_zero_files_only := false
  copy_file_properties := none
  copy_dir_properties := none
  filter := none
  filesystem_options := none
  performance_options := none
  retry_settings := none
  logging := none
  mv := none
  post_copy_actions := none
  overwrite_destination_dir_sec_settings_when_mirror := false

/-- RobocopyCommandBuilder::build from src/lib.rs, as the ordered list of
process arguments accumulated on the Command (the program name robocopy
itself excluded): source, destination and file patterns first, then the
copy-mode and unbuffered tokens, then the recursion/mirror block exactly
as written in the source, then the remaining groups in field order. -/
def RobocopyCommandBuilder.buildArgs (b : RobocopyCommandBuilder) : List String :=
  [b.source, b.destination] ++ b.files ++
  (match b.copy_mode with
   | some mode => [mode.toToken]
   | none => []) ++
  (if b.unbuffered then ["/j"] else []) ++
  (if b.empty_dir_copy && b.remove_files_and_dirs_not_in_src &&
      b.overwrite_destination_dir_sec_settings_when_mirror then
    ["/mir", "/e"]
  else
    (if b.empty_dir_copy then ["/e"] else ["/s"]) ++
    (if b.remove_files_and_dirs_not_in_src then ["/purge"] else [])) ++
  (match b.only_copy_top_n_levels with
   | some n => ["/lev:" ++ toString n]
   | none => []) ++
  (if b.structure_and_size_zero_files_only then ["/create"] else []) ++
  (match b.copy_file_properties with
   | some properties => [properties.toToken]
   | none => []) ++
  (match b.copy_dir_properties with
   | some properties => [properties.toToken]
   | none => []) ++
  (match b.filter with
   | some f => f.toArgs
   | none => []) ++
  (match b.filesystem_options with
   | some options => options.toArgs
   | none => []) ++
  (match b.performance_options with
   | some options => options.toArgs
   | none => []) ++
  (match b.retry_settings with
   | some settings => settings.toArgs
   | none => []) ++
  (match b.logging with
   | some lo => lo.toArgs
   | none => []) ++
  (match b.mv with
   | some m => [m.toToken]
   | none => []) ++
  (match b.post_copy_actions with
   | some actions => actions.toArgs
   | none => [])

/-- Enum OkExitCode from src/exit_codes.rs. -/
inductive OkExitCode where
  | NO_CHANGE
  | SOME_COPIES
  | EXTRA_FOUND
  | SOME_COPIES_EXTRA_FOUND
  | MISMATCHES
  | SOME_COPIES_MISMATCHES
  | MISMATCHES_EXTRA_FOUND
  | SOME_COPIES_MISMATCHES_EXTRA_FOUND
deriving DecidableEq

/-- Enum ErrExitCode from src/exit_codes.rs. -/
inductive ErrExitCode where
  | FAIL
  | SOME_COPIES_FAIL
  | FAIL_EXTRA_FOUND
  | SOME_COPIES_FAIL_EXTRA_FOUND
  | FAIL_MISMATCHES
  | SOME_COPIES_FAIL_MISMATCHES
  | FAIL_MISMATCHES_EXTRA_FOUND
  | SOME_COPIES_FAIL_MISMATCHES_EXTRA_FOUND
  | NO_CHANGE_FATAL_ERROR
  | INVALID_EXIT_CODE (c : Int)
deriving DecidableEq

/-- The TryFrom impl for OkExitCode over i8 from src/exit_codes.rs.  The
i8 argument is an Int here; inputs below 8 enter the success branch whose
inner match covers only 0 through 7 and otherwise hits unreachable, a
panic modelled as the outer None; inputs of 8 and above produce the Err
branch, with values beyond 16 collected by INVALID_EXIT_CODE. -/
def okExitCodeTryFrom (n : Int) : Option (Except ErrExitCode OkExitCode) :=
  if n < 8 then
    if n = 0 then some (Except.ok .NO_CHANGE)
    else if n = 1 then some (Except.ok .SOME_COPIES)
    else if n = 2 then some (Except.ok .EXTRA_FOUND)
    else if n = 3 then some (Except.ok .SOME_COPIES_EXTRA_FOUND)
    else if n = 4 then some (Except.ok .MISMATCHES)
    else if n = 5 then some (Except.ok .SOME_COPIES_MISMATCHES)
    else if n = 6 then some (Except.ok .MISMATCHES_EXTRA_FOUND)
    else if n = 7 then some (Except.ok .SOME_COPIES_MISMATCHES_EXTRA_FOUND)
    else none
  else
    some (Except.error (
      if n = 8 then .FAIL
      else if n = 9 then .SOME_COPIES_FAIL
      else if n = 10 then .FAIL_EXTRA_FOUND
      else if n = 11 then .SOME_COPIES_FAIL_EXTRA_FOUND
      else if n = 12 then .FAIL_MISMATCHES
      else if n = 13 then .SOME_COPIES_FAIL_MISMATCHES
      else if n = 14 then .FAIL_MISMATCHES_EXTRA_FOUND
      else if n = 15 then .SOME_COPIES_FAIL_MISMATCHES_EXTRA_FOUND
      else if n = 16 then .NO_CHANGE_FATAL_ERROR
      else .INVALID_EXIT_CODE n))

/-- The cast in RobocopyCommand::execute from src/lib.rs turning the raw
process status into an i8 before classification, with i8 wrap-around. -/
def asI8 (n : Int) : Int :=
  (n + 128) % 256 - 128

/-- The recursion/purge block as the specification words it: the mirror
flag and the empty-directory flag when empty-directory-copy, extraneous
removal and overwrite-security are all requested (and nothing else, in
particular no separate purge or plain-recursion flag), otherwise the
empty-directory flag or, failing that toggle, the plain-recursion flag,
followed independently by the purge flag exactly when extraneous removal
is requested. -/
def specRecursionBlock (b : RobocopyCommandBuilder) : List String :=
  if b.empty_dir_copy && b.remove_files_and_dirs_not_in_src &&
      b.overwrite_destination_dir_sec_settings_when_mirror then
    ["/mir", "/e"]
  else
    (if b.empty_dir_copy then ["/e"] else ["/s"]) ++
    (if b.remove_files_and_dirs_not_in_src then ["/purge"] else [])

/-- The argument tokens build pushes before the recursion/mirror block:
source, destination, file patterns, copy mode, unbuffered toggle. -/
def preRecursionArgs (b : RobocopyCommandBuilder) : List String :=
  [b.source, b.destination] ++ b.files ++
  (match b.copy_mode with
   | some mode => [mode.toToken]
   | none => []) ++
  (if b.unbuffered then ["/j"] else [])

/-- The argument tokens build pushes after the recursion/mirror block:
level limit, structure-only toggle, property, filter, filesystem,
performance, retry, logging, move and post-copy groups, in field order. -/
def postRecursionArgs (b : RobocopyCommandBuilder) : List String :=
  (match b.only_copy_top_n_levels with
   | some n => ["/lev:" ++ toString n]
   | none => []) ++
  (if b.structure_and_size_zero_files_only then ["/create"] else []) ++
  (match b.copy_file_properties with
   | some properties => [properties.toToken]
   | none => []) ++
  (match b.copy_dir_properties with
   | some properties => [properties.toToken]
   | none => []) ++
  (match b.filter with
   | some f => f.toArgs
   | none => []) ++
  (match b.filesystem_options with
   | some options => options.toArgs
   | none => []) ++
  (match b.performance_options with
   | some options => options.toArgs
   | none => []) ++
  (match b.retry_settings with
   | some settings => settings.toArgs
   | none => []) ++
  (match b.logging with
   | some lo => lo.toArgs
   | none => []) ++
  (match b.mv with
   | some m => [m.toToken]
   | none => []) ++
  (match b.post_copy_actions with
   | some actions => actions.toArgs
   | none => [])

/-- The retry tokens that follow the retry-count position: wait-time
token, registry-save token and share-name token, as the specification
describes the fields independent of the retry count. -/
def retryTail (w : Option (Option Nat)) (s t : Bool) : List String :=
  (match w with
   | some (some n) => ["/w:" ++ toString n]
   | some none => ["/w:"]
   | none => []) ++
  (if s then ["/reg"] else []) ++
  (if t then ["/tbd"] else [])

/-- C1: the claim that combine equals its flip in the boolean-presence
component for every pair of atomic flags of a family fails on the code.
For FileProperties, TIME_STAMPS + DATA decomposes to ATTRIBUTES and DATA
while DATA + TIME_STAMPS decomposes to DATA and TIME_STAMPS: the presence
sets differ, so the addition is not commutative even up to decomposition.
The one-hot vector of the left operand is built from two to the power of
the index plus two, which places every index of two or more one position
too low. -/
theorem c1_combine_not_commutative :
    (FileProperties.add .TIME_STAMPS .DATA).map FileProperties.singleVariants
        = Except.ok [.DATA, .ATTRIBUTES] ∧
    (FileProperties.add .DATA .TIME_STAMPS).map FileProperties.singleVariants
        = Except.ok [.DATA, .TIME_STAMPS] ∧
    FileProperties.add .TIME_STAMPS .DATA ≠ FileProperties.add .DATA .TIME_STAMPS := by
  refine ⟨rfl, rfl, ?_⟩
  intro h
  have e1 : FileProperties.add .TIME_STAMPS .DATA
      = Except.ok (FileProperties.MULTIPLE [true, true, false, false, false, false]) := rfl
  have e2 : FileProperties.add .DATA .TIME_STAMPS
      = Except.ok (FileProperties.MULTIPLE [true, false, true, false, false, false]) := rfl
  rw [e1, e2] at h
  injection h with h2
  exact absurd h2 (by decide)

/-- C2: the claim that decomposing a + a yields the single flag a exactly
once fails on the code: for FileProperties, TIME_STAMPS + TIME_STAMPS
decomposes to ATTRIBUTES and TIME_STAMPS, a spurious extra flag. -/
theorem c2_self_union_not_idempotent :
    (FileProperties.add .TIME_STAMPS .TIME_STAMPS).map FileProperties.singleVariants
      = Except.ok [.ATTRIBUTES, .TIME_STAMPS] := rfl

/-- C3: the decomposition round-trip claim fails on the code.  Combining
the eight atomic FileAttributes flags panics at the very first addition
(the atomic left operand collects six booleans and fails to convert them
into a [bool; 8] array), so the fold over all variants can never match
the decomposition of the all constructor; and an attribute set
contributed through AddAttribsToFiles ends up in the remove component
(the source initialises the slot pair swapped), so any union of add-only
halves decomposes to a remove-only action. -/
theorem c3_decomposition_roundtrip_fails :
    FileAttributes.add .READ_ONLY .ARCHIVE
        = Except.error "could not convert vector to array" ∧
    (FileAttributes.VARIANTS.tail.foldl
        (fun acc v => acc.bind fun x => FileAttributes.add x v)
        (Except.ok FileAttributes.READ_ONLY)).toOption = Option.none ∧
    PostCopyActions.add (.AddAttribsToFiles FileAttributes.none)
        (.AddAttribsToFiles FileAttributes.none)
      = Except.ok (.RmvAttribsFromFiles FileAttributes.none) :=
  ⟨rfl, rfl, rfl⟩

/-- C4: the claim that combine is total and never panics fails on the
code: FileExclusionFilter::OLDER has no index_of arm, so using it as an
operand unwraps None and panics, and every atomic FileAttributes left
operand panics converting its six collected booleans into a [bool; 8]
array. -/
theorem c4_combine_panics_on_valid_inputs :
    FileExclusionFilter.add .OLDER .OLDER
        = Except.error "called unwrap on a None value" ∧
    FileAttributes.add .READ_ONLY .READ_ONLY
        = Except.error "could not convert vector to array" :=
  ⟨rfl, rfl⟩

/-- C5: the in-range part of the exit-code mapping is as the claim says
(0, 7, 8, 16 and values 17 and above map to their variants), but the
claim that every out-of-range status, including a raw status of 200 and
negative values, maps to INVALID_EXIT_CODE fails: the i8 cast turns 200
into -56, negative inputs enter the below-8 success branch, and its inner
match hits the unreachable panic (the outer None) instead of returning a
classification. -/
theorem c5_exit_code_classification_panics_below_zero :
    okExitCodeTryFrom 0 = some (Except.ok .NO_CHANGE) ∧
    okExitCodeTryFrom 7 = some (Except.ok .SOME_COPIES_MISMATCHES_EXTRA_FOUND) ∧
    okExitCodeTryFrom 8 = some (Except.error .FAIL) ∧
    okExitCodeTryFrom 16 = some (Except.error .NO_CHANGE_FATAL_ERROR) ∧
    okExitCodeTryFrom 17 = some (Except.error (.INVALID_EXIT_CODE 17)) ∧
    asI8 200 = -56 ∧
    okExitCodeTryFrom (asI8 200) = Option.none ∧
    okExitCodeTryFrom (-1) = Option.none :=
  ⟨rfl, rfl, rfl, rfl, rfl, rfl, rfl, rfl⟩

/-- C6: command assembly emits exactly the recursion/purge block the
specification describes, between the leading source, destination, file,
copy-mode and unbuffered tokens and the trailing option groups: the
mirror flag plus the empty-directory flag (and no separate purge or
plain-recursion flag) when all three toggles are requested, and otherwise
the empty-directory or plain-recursion flag followed by the purge flag
exactly when extraneous removal is requested. -/
theorem c6_build_emits_spec_recursion_block (b : RobocopyCommandBuilder) :
    b.buildArgs = preRecursionArgs b ++ specRecursionBlock b ++ postRecursionArgs b := by
  simp only [RobocopyCommandBuilder.buildArgs, preRecursionArgs, specRecursionBlock,
    postRecursionArgs, List.append_assoc]

/-- C7 counterexample: combining the add-only half and the remove-only
half of PostCopyActions with both halves holding the explicit
no-attributes value is not signaled as an error at combination time; the
addition returns an ordinary value. -/
theorem c7_empty_combination_not_signaled :
    PostCopyActions.add (.AddAttribsToFiles FileAttributes.none)
        (.RmvAttribsFromFiles FileAttributes.none)
      = Except.ok (.RmvAttribsFromFiles FileAttributes.none) := rfl

/-- C7 as amended: combining the add-only and remove-only halves with
both holding the explicit no-attributes value is not signaled as an
error; it silently returns a value (a remove-only action with no
attributes, because the source swaps the slots), which serializes to the
single empty-suffix token rather than failing fast. -/
theorem c7_empty_combination_silent_value :
    PostCopyActions.add (.AddAttribsToFiles FileAttributes.none)
        (.RmvAttribsFromFiles FileAttributes.none)
      = Except.ok (.RmvAttribsFromFiles FileAttributes.none) ∧
    PostCopyActions.toArgs (.RmvAttribsFromFiles FileAttributes.none) = ["/a-:"] :=
  ⟨rfl, rfl⟩

/-- C8: serializing the Threads performance choice clamps a specified
thread count into the interval from 1 to 128 at serialization time and
defaults an absent count to 8; in particular 255 serializes to 128 and 0
to 1, and no count is ever rejected (the serializer is total). -/
theorem c8_thread_count_clamp_and_default :
    (∀ n : Nat, PerformanceChoice.toToken (.Threads (some n))
        = "/mt:" ++ toString (max 1 (min n 128))) ∧
    PerformanceChoice.toToken (.Threads none) = "/mt:8" ∧
    PerformanceChoice.toToken (.Threads (some 255)) = "/mt:128" ∧
    PerformanceChoice.toToken (.Threads (some 0)) = "/mt:1" :=
  ⟨fun _ => rfl, rfl, rfl, rfl⟩

/-- C9: RetrySettings serialization preserves the three-way distinction
of the retry-count field: an absent outer Option emits no retry token at
all, a present outer Option with no inner number emits the bare token
with an empty trailing value, and a present number is carried after the
colon; the remaining tokens are unaffected in each case. -/
theorem c9_retry_token_three_way_distinction
    (w : Option (Option Nat)) (s t : Bool) (n : Nat) :
    RetrySettings.toArgs ⟨none, w, s, t⟩ = retryTail w s t ∧
    RetrySettings.toArgs ⟨some none, w, s, t⟩ = "/r:" :: retryTail w s t ∧
    RetrySettings.toArgs ⟨some (some n), w, s, t⟩
        = ("/r:" ++ toString n) :: retryTail w s t ∧
    RetrySettings.toArgs ⟨some (some 5), none, false, false⟩ = ["/r:5"] :=
  ⟨rfl, rfl, rfl, rfl⟩

/-- C10: serializing an all-false flag value reached through the explicit
none constructors emits the prefix token with an empty letters suffix
rather than omitting the token: the file-property and directory-property
none values serialize to bare prefix tokens, and a PostCopyActions pair
of two empty attribute sets serializes to the empty add and remove
tokens. -/
theorem c10_none_value_serializes_prefix_with_empty_suffix :
    FileProperties.toToken FileProperties.none = "/copy:" ∧
    DirectoryProperties.toToken DirectoryProperties.none = "/dcopy:" ∧
    PostCopyActions.toArgs (.MULTIPLE FileAttributes.none FileAttributes.none)
        = ["/a+:", "/a-:"] :=
  ⟨rfl, rfl, rfl⟩

end Robocopy

